import Mathlib

/-
Verification development for the calendar_agent repository.

The dialog state machine (backend/agent/nodes.py, backend/agent/graph.py,
backend/agent/state.py) and the resilient tool-invocation client
(backend/mcp_client/client.py) are shallowly embedded below.  Python
dictionaries holding slot data are modelled as association lists over a
small value universe; external collaborators (the NLU provider, the MCP
session, json.loads) are modelled as explicit oracle parameters, while
the control flow of the embedded functions follows the source line by
line.
-/

-- ── Python value / dict model ─────────────────────────────────────────

/-- A value stored in the meeting-info dictionary: the TypedDict
MeetingInfo (backend/agent/state.py) declares string fields plus a
string-list field for participants. -/
inductive PyVal where
  | str (s : String)
  | list (l : List String)
deriving DecidableEq, Repr

/-- A Python dict with string keys, modelled as an association list in
insertion order (Python dicts preserve insertion order). -/
abbrev PyDict := List (String × PyVal)

/-- d.get(k): first binding of k, if any. -/
def dictGet (d : PyDict) (k : String) : Option PyVal :=
  match d with
  | [] => none
  | (k2, v) :: rest => if k2 = k then some v else dictGet rest k

/-- d[k] = v: overwrite in place if the key exists (keeping its
position, as Python does), otherwise append. -/
def dictSet (d : PyDict) (k : String) (v : PyVal) : PyDict :=
  match d with
  | [] => [(k, v)]
  | (k2, v2) :: rest =>
      if k2 = k then (k, v) :: rest else (k2, v2) :: dictSet rest k v

/-- d.get(k, default): Python .get returns the stored value whenever the
key is present, even if that value is empty. -/
def dictGetD (d : PyDict) (k : String) (dflt : PyVal) : PyVal :=
  (dictGet d k).getD dflt

/-- The emptiness test used by the source on a fetched value:
`val is None or val == "" or val == []`. -/
def isEmptyVal (v : Option PyVal) : Bool :=
  match v with
  | none => true
  | some (PyVal.str s) => s = ""
  | some (PyVal.list l) => l = []

/-- Python truthiness of an optional fetched value: None, "" and [] are
falsy, everything else truthy (used by `if info.get(...)`). -/
def truthyOpt (v : Option PyVal) : Bool := !(isEmptyVal v)

-- ── Minimal JSON model (what json.loads can return here) ──────────────

/-- Decoded JSON payloads as they are handled by the embedded code
paths: objects, arrays and strings. -/
inductive Json where
  | str (s : String)
  | obj (fields : List (String × Json))
  | arr (elems : List Json)

/-- Lookup of a key in a JSON object field list. -/
def objGet (fields : List (String × Json)) (k : String) : Option Json :=
  match fields with
  | [] => none
  | (k2, v) :: rest => if k2 = k then some v else objGet rest k

/-- Rendering of a JSON value into response text; the source only ever
interpolates string values here. -/
def pyStrJson (j : Json) : String :=
  match j with
  | Json.str s => s
  | _ => ""

/-- Substring test on character lists, used to model the Python
`in` operator on strings. -/
def hasSubstr (hay need : List Char) : Bool :=
  match hay with
  | [] => need.isEmpty
  | _ :: rest => need.isPrefixOf hay || hasSubstr rest need

/-- Python `t in s` for strings. -/
def containsSub (s t : String) : Bool := hasSubstr s.toList t.toList

/-- Python `"k" in result` on a decoded JSON value: key membership for
objects, element membership for arrays, substring test for strings. -/
def pyInJson (k : String) (j : Json) : Bool :=
  match j with
  | Json.obj fields => fields.any (fun p => p.1 = k)
  | Json.arr elems => elems.any (fun e =>
      match e with
      | Json.str s => s = k
      | _ => false)
  | Json.str s => containsSub s k

/-- Whether the decoded value is a JSON object (a Python dict). -/
def isObjJson (j : Json) : Bool :=
  match j with
  | Json.obj _ => true
  | _ => false

-- ── Agent state model (backend/agent/state.py) ────────────────────────

/-- One chat message in the session log. -/
structure Message where
  role : String
  content : String
deriving DecidableEq, Repr

/-- AgentState of backend/agent/state.py: messages, meeting_info,
status (the Phase), response, intent. -/
structure AgentState where
  messages : List Message
  meeting_info : PyDict
  status : String
  response : String
  intent : String
deriving DecidableEq, Repr

/-- The partial dict a LangGraph node returns; a `none` field means the
node did not mention that key, so the channel keeps its old value. -/
structure NodeUpdate where
  response : Option String
  status : Option String
  meeting_info : Option PyDict
  intent : Option String
deriving DecidableEq, Repr

/-- LangGraph channel update for AgentState: channels without reducers
are overwritten when the node returns the key, otherwise unchanged.
None of the embedded nodes writes to messages. -/
def applyUpdate (st : AgentState) (u : NodeUpdate) : AgentState :=
  { messages := st.messages
    meeting_info := u.meeting_info.getD st.meeting_info
    status := u.status.getD st.status
    response := u.response.getD st.response
    intent := u.intent.getD st.intent }

/-- The two configuration values the embedded nodes read
(backend/config.py; both come from the environment with defaults). -/
structure Settings where
  DEFAULT_TIMEZONE : String
  SENDER_EMAIL : String

-- ── Time model: datetime.strptime/strftime with "%H:%M" ──────────────

/-- Split a character list at every colon (the tokenization strptime
performs for the literal ":" in the format string). -/
def splitColonChars (cs : List Char) : List (List Char) :=
  match cs with
  | [] => [[]]
  | c :: rest =>
      if c = ':' then [] :: splitColonChars rest
      else
        match splitColonChars rest with
        | [] => [[c]]
        | p :: ps => (c :: p) :: ps

/-- Decimal value of a digit string. -/
def digitsToNat (cs : List Char) : Nat :=
  cs.foldl (fun n c => n * 10 + (c.toNat - 48)) 0

/-- datetime.strptime(s, "%H:%M") as hour/minute, None for ValueError:
the whole string must be one-or-two digits, a colon, one-or-two digits,
with hour in 0..23 and minute in 0..59. -/
def strptimeHM (s : String) : Option (Nat × Nat) :=
  match splitColonChars s.toList with
  | [hs, ms] =>
      if 1 ≤ hs.length ∧ hs.length ≤ 2 ∧ hs.all Char.isDigit = true ∧
         1 ≤ ms.length ∧ ms.length ≤ 2 ∧ ms.all Char.isDigit = true then
        if digitsToNat hs ≤ 23 ∧ digitsToNat ms ≤ 59 then
          some (digitsToNat hs, digitsToNat ms)
        else none
      else none
  | _ => none

/-- Adding timedelta(hours=1) to a time of day, in minutes-since-
midnight arithmetic; the date part is dropped by the later strftime. -/
def addHour (h m : Nat) : Nat × Nat :=
  let t := h * 60 + m + 60
  (t / 60 % 24, t % 60)

/-- Two-digit zero-padded decimal rendering (for 0 ≤ n < 100). -/
def pad2 (n : Nat) : String :=
  String.mk [Char.ofNat (48 + n / 10), Char.ofNat (48 + n % 10)]

/-- strftime("%H:%M"). -/
def formatHM (h m : Nat) : String := pad2 h ++ ":" ++ pad2 m

-- ── Agent nodes (backend/agent/nodes.py) ──────────────────────────────

/-- REQUIRED_FIELDS, nodes.py line 28. -/
def REQUIRED_FIELDS : List String := ["title", "date", "start_time", "participants"]

/-- _missing_fields (nodes.py lines 31-37): the required fields whose
value is None, "" or [], in declaration order. -/
def _missing_fields (info : PyDict) : List String :=
  REQUIRED_FIELDS.filter (fun f => isEmptyVal (dictGet info f))

/-- Python str.lower() (ASCII case folding). -/
def pyLower (s : String) : String := String.map Char.toLower s

/-- Rendering of a PyVal into reply text; in the source only string
fields are interpolated directly, and the participants list goes
through an explicit ", ".join. -/
def pyStrVal (v : PyVal) : String :=
  match v with
  | PyVal.str s => s
  | PyVal.list l => String.intercalate ", " l

/-- _format_details (nodes.py lines 40-54): the "details so far" block,
one line per truthy field, plus an unconditional timezone line. -/
def _format_details (settings : Settings) (info : PyDict) : String :=
  String.intercalate "\n"
    ((if truthyOpt (dictGet info "title") then
        ["📌 Title        : " ++ pyStrVal (dictGetD info "title" (PyVal.str ""))]
      else []) ++
     (if truthyOpt (dictGet info "date") then
        ["📅 Date         : " ++ pyStrVal (dictGetD info "date" (PyVal.str ""))]
      else []) ++
     (if truthyOpt (dictGet info "start_time") then
        ["⏰ Time         : " ++ pyStrVal (dictGetD info "start_time" (PyVal.str "")) ++
         " – " ++ pyStrVal (dictGetD info "end_time" (PyVal.str "—"))]
      else []) ++
     ["🌍 Timezone     : " ++ pyStrVal (dictGetD info "timezone" (PyVal.str settings.DEFAULT_TIMEZONE))] ++
     (if truthyOpt (dictGet info "participants") then
        ["👥 Participants : " ++ pyStrVal (dictGetD info "participants" (PyVal.list []))]
      else []) ++
     (if truthyOpt (dictGet info "description") then
        ["📝 Description  : " ++ pyStrVal (dictGetD info "description" (PyVal.str ""))]
      else []))

/-- The key tuple of the merge loop, nodes.py line 86. -/
def MERGE_KEYS : List String :=
  ["title", "date", "start_time", "end_time", "timezone", "participants", "description"]

/-- One iteration of the merge loop (nodes.py lines 87-89): copy the
parsed value only when it is not None, not "" and not []. -/
def mergeField (parsed : PyDict) (info : PyDict) (key : String) : PyDict :=
  match dictGet parsed key with
  | none => info
  | some v => if isEmptyVal (some v) then info else dictSet info key v

/-- The merge of a parsed extraction into the existing meeting info
(nodes.py lines 85-89). -/
def mergeExtraction (info parsed : PyDict) : PyDict :=
  MERGE_KEYS.foldl (mergeField parsed) info

/-- Timezone default (nodes.py lines 92-93). -/
def applyTimezoneDefault (settings : Settings) (info : PyDict) : PyDict :=
  if !truthyOpt (dictGet info "timezone") then
    dictSet info "timezone" (PyVal.str settings.DEFAULT_TIMEZONE)
  else info

/-- Auto end_time (nodes.py lines 96-101): when start_time is truthy
and end_time is falsy, parse start_time as "%H:%M" and store
start_time + 1 hour; a ValueError from strptime is swallowed.  The
wildcard arm covers values outside Optional[str], which the state type
never produces. -/
def applyEndTimeDerivation (info : PyDict) : PyDict :=
  if truthyOpt (dictGet info "start_time") && !truthyOpt (dictGet info "end_time") then
    match dictGet info "start_time" with
    | some (PyVal.str s) =>
        match strptimeHM s with
        | some hm => dictSet info "end_time" (PyVal.str (formatHM (addHour hm.1 hm.2).1 (addHour hm.1 hm.2).2))
        | none => info
    | _ => info
  else info

/-- extract_details_node (nodes.py lines 80-104); the NLU extraction
parse_meeting_details is an oracle, passed in as the dict it
returned. -/
def extract_details_node (settings : Settings) (parsed : PyDict) (st : AgentState) : NodeUpdate :=
  let info := applyEndTimeDerivation
    (applyTimezoneDefault settings (mergeExtraction st.meeting_info parsed))
  ⟨none, some "collecting", some info, none⟩

/-- check_completeness_node (nodes.py lines 111-116). -/
def check_completeness_node (st : AgentState) : NodeUpdate :=
  if _missing_fields st.meeting_info ≠ [] then ⟨none, none, none, some "incomplete"⟩
  else ⟨none, none, none, some "complete"⟩

/-- The greeting vocabulary of general_response_node, nodes.py 231. -/
def GREETINGS : List String :=
  ["hi", "hello", "hey", "hola", "namaste", "hii", "hiii", "yo", "sup"]

/-- general_response_node (nodes.py lines 218-250); the LLM call
generate_response is the oracle gen (status, situation, meeting_info
snapshot). -/
def general_response_node (gen : String → String → PyDict → String) (st : AgentState) : NodeUpdate :=
  if st.intent = "denial" then
    ⟨some "No problem! Meeting cancelled. Let me know whenever you want to schedule something. 😊",
     some "idle", some [], none⟩
  else
    let last_msg :=
      match st.messages.getLast? with
      | some msg => pyLower msg.content.trim
      | none => ""
    if GREETINGS.contains last_msg || GREETINGS.any (fun g => last_msg.startsWith g) then
      ⟨some ("Hey! 👋 I\u0027m your meeting planner. Just tell me what meeting you want — like:\n\n" ++
             "\"Schedule a meeting with raj@gmail.com tomorrow at 3 PM about project review\"\n\n" ++
             "Or just share details one by one, I\u0027ll guide you!"),
       none, none, none⟩
    else
      let resp := gen st.status
        "User is chatting casually. Respond naturally and remind them you can schedule meetings."
        st.meeting_info
      if resp = "" || containsSub resp "User sent" || resp.length < 5 then
        ⟨some "I\u0027m here to help schedule meetings! 📅 Just tell me the title, date, time, and participants.",
         none, none, none⟩
      else ⟨some resp, none, none, none⟩

-- ── Routing (backend/agent/graph.py) ──────────────────────────────────

/-- _route_after_classify (graph.py lines 24-36). -/
def _route_after_classify (st : AgentState) : String :=
  if st.intent = "confirmation" ∧ st.status = "confirming" then "create_meeting"
  else if st.intent = "denial" then "general_response"
  else if st.intent = "new_request" ∨ st.intent = "modification" then "extract_details"
  else if st.intent = "confirmation" ∧ st.status ≠ "confirming" then "general_response"
  else "general_response"

/-- _route_after_completeness (graph.py lines 39-40). -/
def _route_after_completeness (st : AgentState) : String :=
  if st.intent = "complete" then "present_confirmation" else "ask_missing"

-- ── Tool client (backend/mcp_client/client.py) ────────────────────────

/-- What the i-th `self._session.call_tool` attempt of one call_tool
invocation does: raise, or complete and hand back the list of content
text blocks. -/
inductive RpcOutcome where
  | raiseExc (msg : String)
  | content (texts : List String)

/-- The external world one call_tool invocation interacts with:
the per-attempt RPC outcome, json.loads on the payload text (error =
the exception it raises), and the outcome of the i-th connect() of this
invocation (none = success, some msg = the exception it raises;
disconnect never throws, so _reconnect fails exactly when its connect
does). -/
structure CallEnv where
  rpc : Nat → RpcOutcome
  decode : String → Except String Json
  connect : Nat → Option String

/-- client.py line 112: `result.content[0].text if result.content else
"\x7b\x7d"`. -/
def contentText (texts : List String) : String :=
  match texts with
  | [] => "\x7b\x7d"
  | t :: _ => t

/-- The body of one attempt of the retry loop (client.py lines
110-115): invoke the procedure, take the first content text, decode it
as JSON.  Any exception from either step lands in the same `except`
handler, so both failure sources share the error channel. -/
def attemptCall (env : CallEnv) (i : Nat) : Except String Json :=
  match env.rpc i with
  | RpcOutcome.raiseExc msg => Except.error msg
  | RpcOutcome.content texts => env.decode (contentText texts)

/-- Observable outcome of a call_tool invocation: the returned dict,
how many procedure attempts ran, and how many reconnects were
attempted. -/
structure CallTrace where
  result : Json
  procAttempts : Nat
  reconnects : Nat

/-- The `for attempt in range(2)` loop of call_tool (client.py lines
109-129), unrolled: on a first-attempt failure reconnect once (using
the c-th connect of this invocation) and retry once; a reconnect
failure or a second failure returns an error dict.  The fall-through
return on line 131 is unreachable because attempt 1 always returns. -/
def call_tool_attempts (env : CallEnv) (c : Nat) : CallTrace :=
  match attemptCall env 0 with
  | Except.ok parsed => ⟨parsed, 1, 0⟩
  | Except.error _ =>
      match env.connect c with
      | some reconnExc =>
          ⟨Json.obj [("error", Json.str ("MCP connection lost: " ++ reconnExc))], 1, 1⟩
      | none =>
          match attemptCall env 1 with
          | Except.ok parsed => ⟨parsed, 2, 1⟩
          | Except.error exc => ⟨Json.obj [("error", Json.str exc)], 2, 1⟩

/-- call_tool (client.py lines 99-131).  When the client is not
connected it first tries connect(); a failure there returns an error
dict with no procedure attempt.  The tool name and arguments are
carried for fidelity; the environment fixes the outcome of each
attempt of this invocation. -/
def call_tool (env : CallEnv) (connected : Bool) (_tool_name : String)
    (_arguments : PyDict) : CallTrace :=
  if !connected then
    match env.connect 0 with
    | some exc => ⟨Json.obj [("error", Json.str ("MCP not available: " ++ exc))], 0, 0⟩
    | none => call_tool_attempts env 1
  else call_tool_attempts env 0

/-- Whether a returned dict carries an "error" key. -/
def hasErrorKey (j : Json) : Bool :=
  match j with
  | Json.obj fields => fields.any (fun p => p.1 = "error")
  | _ => false

-- ── create_meeting node (nodes.py lines 163-211) ──────────────────────

/-- The argument dict of the create_meeting call (nodes.py lines
175-181), given the values of the mandatory lookups info["date"] and
info["start_time"]. -/
def create_meeting_args (settings : Settings) (info : PyDict) (dateV startV : PyVal) : PyDict :=
  [("title", dictGetD info "title" (PyVal.str "Meeting")),
   ("date", dateV),
   ("start_time", startV),
   ("end_time", dictGetD info "end_time" startV),
   ("timezone", dictGetD info "timezone" (PyVal.str settings.DEFAULT_TIMEZONE)),
   ("participants", dictGetD info "participants" (PyVal.list [])),
   ("description", dictGetD info "description" (PyVal.str ""))]

/-- The success reply text of create_meeting_node (lines 190-203). -/
def create_meeting_success_text (settings : Settings) (info : PyDict)
    (fields : List (String × Json)) : String :=
  let link := pyStrJson ((objGet fields "link").getD (Json.str ""))
  let meet_link := pyStrJson ((objGet fields "meet_link").getD (Json.str ""))
  let organizer := pyStrJson ((objGet fields "organizer").getD (Json.str settings.SENDER_EMAIL))
  "🎉 **Meeting created successfully!**\n\n" ++
  _format_details settings info ++ "\n" ++
  "📧 Organizer    : " ++ organizer ++ "\n\n" ++
  (if meet_link ≠ "" then "📹 **Google Meet**: " ++ meet_link ++ "\n" else "") ++
  (if link ≠ "" then "🔗 Calendar link : " ++ link ++ "\n" else "") ++
  "\nWant to schedule another meeting?"

/-- create_meeting_node (nodes.py lines 163-211).  `connected` is the
is_connected flag checked on line 167 (false also covers a missing
client).  The direct subscripts info["date"] and info["start_time"]
raise KeyError when absent, which the blanket `except` turns into an
error reply; an "error" key in the result is surfaced without retry;
`result["error"]` on a non-dict result and `result.get` on a non-dict
result likewise raise into the handler.  Every branch leaves
meeting_info untouched. -/
def create_meeting_node (settings : Settings) (connected : Bool) (env : CallEnv)
    (st : AgentState) : NodeUpdate :=
  if !connected then
    ⟨some "❌ Calendar service is not available. Please try again later.",
     some "error", none, none⟩
  else
    match dictGet st.meeting_info "date", dictGet st.meeting_info "start_time" with
    | some dateV, some startV =>
        let result := (call_tool env true "create_meeting"
          (create_meeting_args settings st.meeting_info dateV startV)).result
        if pyInJson "error" result then
          match result with
          | Json.obj fields =>
              ⟨some ("❌ Failed to create meeting: " ++
                     pyStrJson ((objGet fields "error").getD (Json.str ""))),
               some "error", none, none⟩
          | _ =>
              ⟨some "❌ Error creating meeting: TypeError", some "error", none, none⟩
        else
          match result with
          | Json.obj fields =>
              ⟨some (create_meeting_success_text settings st.meeting_info fields),
               some "created", none, none⟩
          | _ =>
              ⟨some "❌ Error creating meeting: AttributeError", some "error", none, none⟩
    | _, _ =>
        ⟨some "❌ Error creating meeting: KeyError", some "error", none, none⟩

-- ── Concrete fixtures used by the witness theorems ────────────────────

/-- A concrete settings record (the source defaults). -/
def settingsW : Settings := ⟨"Asia/Kolkata", "organizer@example.com"⟩

/-- Environment for the retry-bound scenario: every procedure attempt
raises, every connect succeeds. -/
def envC1fail : CallEnv :=
  ⟨fun _ => RpcOutcome.raiseExc "stream closed",
   fun _ => Except.ok (Json.obj []),
   fun _ => none⟩

/-- Environment for the decode-failure scenario: every procedure
attempt completes and returns the text "not json", which json.loads
rejects; reconnects succeed. -/
def envC2decode : CallEnv :=
  ⟨fun _ => RpcOutcome.content ["not json"],
   fun t => if t = "not json" then Except.error "Expecting value" else Except.ok (Json.obj []),
   fun _ => none⟩

/-- A state with a partially filled slot set awaiting completion. -/
def stC3demo : AgentState :=
  ⟨[⟨"user", "schedule a standup"⟩],
   [("title", PyVal.str "Standup"), ("participants", PyVal.list ["a@b.com"])],
   "collecting", "", "new_request"⟩

/-- A confirming-phase state whose message and slot set are arbitrary
junk, to exhibit that routing ignores them. -/
def stC6confirm : AgentState :=
  ⟨[⟨"user", "sure why not"⟩],
   [("description", PyVal.str "anything")],
   "confirming", "", "confirmation"⟩

/-- A denial state carrying accumulated slots that must be cleared. -/
def stC7denial : AgentState :=
  ⟨[⟨"user", "no"⟩],
   [("title", PyVal.str "Sync"), ("date", PyVal.str "2025-07-15")],
   "confirming", "", "denial"⟩

/-- An LLM oracle that always returns the empty string. -/
def genZero : String → String → PyDict → String := fun _ _ _ => ""

/-- An existing slot set with date and participants already known. -/
def infoC4 : PyDict :=
  [("date", PyVal.str "2025-07-15"), ("participants", PyVal.list ["a@b.com"])]

/-- An extraction result whose fields are all empty. -/
def parsedC4empty : PyDict :=
  [("title", PyVal.str ""), ("participants", PyVal.list [])]

/-- An extraction result whose only non-empty field is title. -/
def parsedC4title : PyDict :=
  [("title", PyVal.str "Project Sync"), ("date", PyVal.str "")]

/-- A merged slot set with a late start time and no end time. -/
def infoC5 : PyDict := [("start_time", PyVal.str "23:30")]

/-- A merged slot set whose start time is not in HH:MM form. -/
def infoC10 : PyDict := [("start_time", PyVal.str "3 PM")]

/-- An environment whose create_meeting call reports an application
error. -/
def envC8err : CallEnv :=
  ⟨fun _ => RpcOutcome.content ["payload"],
   fun _ => Except.ok (Json.obj [("error", Json.str "Invalid date")]),
   fun _ => none⟩

/-- A confirmed state whose slot set is complete. -/
def stC8full : AgentState :=
  ⟨[⟨"user", "yes"⟩],
   [("title", PyVal.str "Sync"), ("date", PyVal.str "2025-07-15"),
    ("start_time", PyVal.str "15:00"), ("participants", PyVal.list ["a@b.com"])],
   "confirming", "", "confirmation"⟩

/-- An environment whose create_meeting call succeeds with an empty
result object. -/
def envC9ok : CallEnv :=
  ⟨fun _ => RpcOutcome.content ["payload"],
   fun _ => Except.ok (Json.obj []),
   fun _ => none⟩

/-- A confirmed state whose slot set lacks title and end_time. -/
def stC9defaults : AgentState :=
  ⟨[⟨"user", "yes"⟩],
   [("date", PyVal.str "2025-07-15"), ("start_time", PyVal.str "15:00"),
    ("participants", PyVal.list ["a@b.com"])],
   "confirming", "", "confirmation"⟩

-- ── Helper lemmas about the dict model ────────────────────────────────

theorem dictGet_dictSet_self (d : PyDict) (k : String) (v : PyVal) :
    dictGet (dictSet d k v) k = some v := by
  induction d with
  | nil => simp [dictSet, dictGet]
  | cons p rest ih =>
      obtain ⟨k2, v2⟩ := p
      by_cases h : k2 = k
      · subst h; simp [dictSet, dictGet]
      · simp [dictSet, dictGet, h, ih]

theorem dictGet_dictSet_ne (d : PyDict) (k k2 : String) (v : PyVal) (h : k2 ≠ k) :
    dictGet (dictSet d k v) k2 = dictGet d k2 := by
  induction d with
  | nil => simp [dictSet, dictGet, Ne.symm h]
  | cons p rest ih =>
      obtain ⟨k3, v3⟩ := p
      by_cases h3 : k3 = k
      · subst h3
        simp [dictSet, dictGet, Ne.symm h]
      · simp [dictSet, dictGet, h3, ih]

theorem mergeField_skip (parsed info : PyDict) (k : String)
    (h : isEmptyVal (dictGet parsed k) = true) :
    mergeField parsed info k = info := by
  unfold mergeField
  cases hv : dictGet parsed k with
  | none => rfl
  | some v =>
      rw [hv] at h
      simp [h]

theorem foldl_mergeField_preserves (parsed : PyDict) (keys : List String)
    (info : PyDict) (k : String) (hk : isEmptyVal (dictGet parsed k) = true) :
    dictGet (keys.foldl (mergeField parsed) info) k = dictGet info k := by
  induction keys generalizing info with
  | nil => rfl
  | cons key rest ih =>
      rw [List.foldl_cons, ih]
      by_cases hkey : key = k
      · subst hkey
        rw [mergeField_skip _ _ _ hk]
      · unfold mergeField
        cases hv : dictGet parsed key with
        | none => rfl
        | some v =>
            by_cases he : isEmptyVal (some v) = true
            · simp [he]
            · simp [he, dictGet_dictSet_ne _ _ _ _ (fun e => hkey e.symm)]

theorem strptimeHM_bounds (s : String) (h m : Nat)
    (hp : strptimeHM s = some (h, m)) : h ≤ 23 ∧ m ≤ 59 := by
  unfold strptimeHM at hp
  split at hp
  · split at hp
    · split at hp
      · rename_i hrange
        cases hp
        exact hrange
      · exact absurd hp (by simp)
    · exact absurd hp (by simp)
  · exact absurd hp (by simp)

theorem addHour_eq (h m : Nat) (hm : m ≤ 59) :
    addHour h m = ((h + 1) % 24, m) := by
  unfold addHour
  simp only [Prod.mk.injEq]
  constructor <;> omega

-- ── C3: completeness check ────────────────────────────────────────────

/-- C3: the completeness check returns exactly the required fields
(title, date, start_time, participants) whose value is absent, "" or
[], in the fixed declaration order (a sublist of REQUIRED_FIELDS); it
never contains end_time, timezone or description; and the derived
intent is "complete" exactly when no field is missing and "incomplete"
otherwise. -/
theorem check_completeness_spec (st : AgentState) :
    (∀ f, f ∈ _missing_fields st.meeting_info ↔
        (f ∈ REQUIRED_FIELDS ∧ isEmptyVal (dictGet st.meeting_info f) = true)) ∧
    (_missing_fields st.meeting_info).Sublist REQUIRED_FIELDS ∧
    "end_time" ∉ _missing_fields st.meeting_info ∧
    "timezone" ∉ _missing_fields st.meeting_info ∧
    "description" ∉ _missing_fields st.meeting_info ∧
    ((check_completeness_node st).intent = some "complete" ↔
        _missing_fields st.meeting_info = []) ∧
    ((check_completeness_node st).intent = some "incomplete" ↔
        _missing_fields st.meeting_info ≠ []) := by
  refine ⟨?_, ?_, ?_, ?_, ?_, ?_, ?_⟩
  · intro f
    simp [_missing_fields, List.mem_filter]
  · exact List.filter_sublist _
  · intro hmem
    have hreq := (List.mem_filter.mp hmem).1
    exact absurd hreq (by decide)
  · intro hmem
    have hreq := (List.mem_filter.mp hmem).1
    exact absurd hreq (by decide)
  · intro hmem
    have hreq := (List.mem_filter.mp hmem).1
    exact absurd hreq (by decide)
  · by_cases hm : _missing_fields st.meeting_info = [] <;>
      simp [check_completeness_node, hm]
  · by_cases hm : _missing_fields st.meeting_info = [] <;>
      simp [check_completeness_node, hm]

/-- C3 witness: on a concrete partial slot set, date is reported
missing and the derived intent is "incomplete". -/
theorem check_completeness_spec_witness :
    "date" ∈ _missing_fields stC3demo.meeting_info ∧
    (check_completeness_node stC3demo).intent = some "incomplete" := by
  have h := check_completeness_spec stC3demo
  exact ⟨(h.1 "date").mpr (by decide), (h.2.2.2.2.2.2).mpr (by decide)⟩

-- ── C6: confirmation routing ──────────────────────────────────────────

/-- C6: with Phase "confirming" and classified intent "confirmation",
the post-classification router selects the create_meeting node,
whatever the messages and the slot set hold. -/
theorem route_confirming_confirmation (st : AgentState)
    (hi : st.intent = "confirmation") (hs : st.status = "confirming") :
    _route_after_classify st = "create_meeting" := by
  simp [_route_after_classify, hi, hs]

/-- C6 witness at a concrete confirming-phase state. -/
theorem route_confirming_confirmation_witness :
    _route_after_classify stC6confirm = "create_meeting" :=
  route_confirming_confirmation stC6confirm rfl rfl

-- ── C7: denial cancels and resets ─────────────────────────────────────

/-- C7: whenever the classified intent is "denial", at any phase and
with any accumulated slot set, the router sends the turn to
general_response, and the resulting state has an empty slot set, phase
"idle" and the cancellation reply. -/
theorem denial_resets_session (gen : String → String → PyDict → String)
    (st : AgentState) (hi : st.intent = "denial") :
    _route_after_classify st = "general_response" ∧
    (applyUpdate st (general_response_node gen st)).meeting_info = [] ∧
    (applyUpdate st (general_response_node gen st)).status = "idle" ∧
    (applyUpdate st (general_response_node gen st)).response =
      "No problem! Meeting cancelled. Let me know whenever you want to schedule something. 😊" := by
  refine ⟨?_, ?_, ?_, ?_⟩ <;>
    simp [_route_after_classify, general_response_node, applyUpdate, hi]

/-- C7 witness: a denial in the confirming phase with accumulated
slots ends with an empty slot set and phase "idle". -/
theorem denial_resets_session_witness :
    (applyUpdate stC7denial (general_response_node genZero stC7denial)).meeting_info = [] ∧
    (applyUpdate stC7denial (general_response_node genZero stC7denial)).status = "idle" := by
  have h := denial_resets_session genZero stC7denial rfl
  exact ⟨h.2.1, h.2.2.1⟩

-- ── C4: merge copies only non-empty fields ────────────────────────────

/-- C4: the merge loop copies a field from the extraction only when its
value is not None, "" or []; an all-empty extraction leaves the slot
set literally unchanged; an extraction whose only non-empty field is
title rewrites title and leaves every other key exactly as before. -/
theorem merge_copies_only_nonempty (info parsed : PyDict) :
    (∀ k, isEmptyVal (dictGet parsed k) = true →
        dictGet (mergeExtraction info parsed) k = dictGet info k) ∧
    ((∀ k ∈ MERGE_KEYS, isEmptyVal (dictGet parsed k) = true) →
        mergeExtraction info parsed = info) ∧
    (∀ v, dictGet parsed "title" = some v → isEmptyVal (some v) = false →
        (∀ k ∈ MERGE_KEYS, k ≠ "title" → isEmptyVal (dictGet parsed k) = true) →
        dictGet (mergeExtraction info parsed) "title" = some v ∧
        ∀ k, k ≠ "title" → dictGet (mergeExtraction info parsed) k = dictGet info k) := by
  refine ⟨?_, ?_, ?_⟩
  · intro k hk
    exact foldl_mergeField_preserves parsed MERGE_KEYS info k hk
  · intro h
    show List.foldl (mergeField parsed) info MERGE_KEYS = info
    simp only [MERGE_KEYS, List.foldl_cons, List.foldl_nil]
    rw [mergeField_skip parsed info "title" (h "title" (by decide)),
        mergeField_skip parsed info "date" (h "date" (by decide)),
        mergeField_skip parsed info "start_time" (h "start_time" (by decide)),
        mergeField_skip parsed info "end_time" (h "end_time" (by decide)),
        mergeField_skip parsed info "timezone" (h "timezone" (by decide)),
        mergeField_skip parsed info "participants" (h "participants" (by decide)),
        mergeField_skip parsed info "description" (h "description" (by decide))]
  · intro v hv he h
    have hstep : mergeField parsed info "title" = dictSet info "title" v := by
      unfold mergeField
      rw [hv]
      simp [he]
    have hall : mergeExtraction info parsed = dictSet info "title" v := by
      show List.foldl (mergeField parsed) info MERGE_KEYS = _
      simp only [MERGE_KEYS, List.foldl_cons, List.foldl_nil]
      rw [hstep,
          mergeField_skip parsed _ "date" (h "date" (by decide) (by decide)),
          mergeField_skip parsed _ "start_time" (h "start_time" (by decide) (by decide)),
          mergeField_skip parsed _ "end_time" (h "end_time" (by decide) (by decide)),
          mergeField_skip parsed _ "timezone" (h "timezone" (by decide) (by decide)),
          mergeField_skip parsed _ "participants" (h "participants" (by decide) (by decide)),
          mergeField_skip parsed _ "description" (h "description" (by decide) (by decide))]
    rw [hall]
    exact ⟨dictGet_dictSet_self info "title" v,
           fun k hk => dictGet_dictSet_ne info "title" k v hk⟩

/-- C4 witness: on concrete dicts, an all-empty extraction changes
nothing, and a title-only extraction rewrites title and keeps date. -/
theorem merge_copies_only_nonempty_witness :
    mergeExtraction infoC4 parsedC4empty = infoC4 ∧
    dictGet (mergeExtraction infoC4 parsedC4title) "title" = some (PyVal.str "Project Sync") ∧
    dictGet (mergeExtraction infoC4 parsedC4title) "date" = dictGet infoC4 "date" := by
  have h1 := (merge_copies_only_nonempty infoC4 parsedC4empty).2.1 (by decide)
  have h2 := (merge_copies_only_nonempty infoC4 parsedC4title).2.2
    (PyVal.str "Project Sync") (by decide) (by decide) (by decide)
  exact ⟨h1, h2.1, h2.2 "date" (by decide)⟩

-- ── C5: end-time derivation with midnight wrap ────────────────────────

/-- C5: when start_time parses as H:M and end_time is falsy, the
derivation stores start_time plus one hour as a bare time of day,
wrapping past midnight ((h+1) mod 24); a truthy end_time is never
overwritten. -/
theorem end_time_derivation_spec (info : PyDict) :
    (∀ s h m, dictGet info "start_time" = some (PyVal.str s) →
        strptimeHM s = some (h, m) →
        truthyOpt (dictGet info "end_time") = false →
        applyEndTimeDerivation info =
          dictSet info "end_time" (PyVal.str (formatHM ((h + 1) % 24) m))) ∧
    (truthyOpt (dictGet info "end_time") = true →
        applyEndTimeDerivation info = info) := by
  constructor
  · intro s h m hs hp he
    have hm59 := (strptimeHM_bounds s h m hp).2
    have hsne : s ≠ "" := by
      intro h0
      subst h0
      rw [show strptimeHM "" = none from rfl] at hp
      cases hp
    have hts : truthyOpt (some (PyVal.str s)) = true := by
      simp [truthyOpt, isEmptyVal, hsne]
    unfold applyEndTimeDerivation
    rw [hs, he, hts]
    simp [hp, addHour_eq h m hm59]
  · intro he
    simp [applyEndTimeDerivation, he]

/-- C5 witness: start_time 23:30 with no end_time derives end_time
00:30. -/
theorem end_time_derivation_spec_witness :
    applyEndTimeDerivation infoC5 =
      [("start_time", PyVal.str "23:30"), ("end_time", PyVal.str "00:30")] := by
  have h := (end_time_derivation_spec infoC5).1 "23:30" 23 30 (by decide) (by decide) (by decide)
  rw [h]
  decide

-- ── C10: unparseable start_time skips the derivation ──────────────────

/-- C10: when start_time is present but not in 24-hour H:M form, the
derivation is skipped without error: the slot set is returned unchanged
and end_time stays absent. -/
theorem end_time_skip_unparseable (info : PyDict) (s : String)
    (hs : dictGet info "start_time" = some (PyVal.str s))
    (hp : strptimeHM s = none)
    (he : dictGet info "end_time" = none) :
    applyEndTimeDerivation info = info ∧
    dictGet (applyEndTimeDerivation info) "end_time" = none := by
  have hmain : applyEndTimeDerivation info = info := by
    unfold applyEndTimeDerivation
    split
    · rw [hs]
      simp [hp]
    · rfl
  exact ⟨hmain, by rw [hmain, he]⟩

/-- C10 witness: start_time "3 PM" leaves the slot set unchanged, with
no end_time. -/
theorem end_time_skip_unparseable_witness :
    applyEndTimeDerivation infoC10 = infoC10 ∧
    dictGet (applyEndTimeDerivation infoC10) "end_time" = none :=
  end_time_skip_unparseable infoC10 "3 PM" (by decide) (by decide) (by decide)

-- ── Shared helper lemmas for the create_meeting node ──────────────────

theorem str_append_ne_empty (a b : String) (ha : a ≠ "") : a ++ b ≠ "" := by
  intro h
  apply ha
  have hd : a.data ++ b.data = [] := by
    have h2 := congrArg String.data h
    rwa [String.data_append] at h2
  obtain ⟨ha0, _⟩ := List.append_eq_nil.mp hd
  cases a with
  | mk d => exact congrArg String.mk ha0

/-- Every branch of create_meeting_node omits the meeting_info key, so
the slot set channel is never written by the node. -/
theorem create_meeting_meeting_info_none (settings : Settings) (connected : Bool)
    (env : CallEnv) (st : AgentState) :
    (create_meeting_node settings connected env st).meeting_info = none := by
  unfold create_meeting_node
  split
  · rfl
  · split
    · dsimp only
      split
      · split <;> rfl
      · split <;> rfl
    · rfl

-- ── C1: call_tool retry bound ─────────────────────────────────────────

/-- C1: on a connected client, when the first attempt fails and the
reconnect succeeds but the second attempt also fails, exactly 2
procedure attempts and exactly 1 reconnect happen and the returned
dict carries an "error" key (the embedding is a total function, so no
fault escapes and no third attempt exists); when the reconnect itself
fails, an error dict is returned with a single procedure attempt. -/
theorem call_tool_retry_bound (env : CallEnv) (name : String) (args : PyDict)
    (h0 : ∃ e, attemptCall env 0 = Except.error e) :
    ((env.connect 0 = none ∧ ∃ e, attemptCall env 1 = Except.error e) →
       (call_tool env true name args).procAttempts = 2 ∧
       (call_tool env true name args).reconnects = 1 ∧
       hasErrorKey (call_tool env true name args).result = true) ∧
    (∀ msg, env.connect 0 = some msg →
       (call_tool env true name args).procAttempts = 1 ∧
       (call_tool env true name args).reconnects = 1 ∧
       hasErrorKey (call_tool env true name args).result = true) := by
  obtain ⟨e0, he0⟩ := h0
  constructor
  · rintro ⟨hc, e1, he1⟩
    simp [call_tool, call_tool_attempts, he0, hc, he1, hasErrorKey]
  · intro msg hc
    simp [call_tool, call_tool_attempts, he0, hc, hasErrorKey]

/-- C1 witness: with both attempts raising and reconnect succeeding,
the trace shows 2 attempts, 1 reconnect and an error dict. -/
theorem call_tool_retry_bound_witness :
    (call_tool envC1fail true "create_meeting" []).procAttempts = 2 ∧
    (call_tool envC1fail true "create_meeting" []).reconnects = 1 ∧
    hasErrorKey (call_tool envC1fail true "create_meeting" []).result = true := by
  have h := call_tool_retry_bound envC1fail "create_meeting" [] ⟨"stream closed", rfl⟩
  exact h.1 ⟨rfl, "stream closed", rfl⟩

-- ── C2: decode failures also trigger the retry path (corrected) ───────

/-- C2 counterexample: in envC2decode the first procedure attempt
completes (its RPC returns a content text), only the JSON decode of
that text fails; yet call_tool performs a reconnect and a second
procedure attempt, because json.loads sits inside the retried try
block (client.py line 113).  This refutes the claim that a decode
failure after a successful procedure call triggers no reconnect and no
second attempt. -/
theorem call_tool_decode_retry_counterexample :
    envC2decode.rpc 0 = RpcOutcome.content ["not json"] ∧
    envC2decode.decode "not json" = Except.error "Expecting value" ∧
    (call_tool envC2decode true "create_meeting" []).reconnects = 1 ∧
    (call_tool envC2decode true "create_meeting" []).procAttempts = 2 := by
  refine ⟨rfl, ?_, ?_, ?_⟩ <;> rfl

/-- C2 amended: the reconnect-and-retry path is triggered by any
failure inside an attempt, including a failure to decode the returned
textual payload as JSON after a successful procedure call; such a
decode failure causes 1 reconnect and a second procedure attempt. -/
theorem call_tool_decode_failure_retries (env : CallEnv) (name : String)
    (args : PyDict) (texts : List String)
    (h0 : env.rpc 0 = RpcOutcome.content texts)
    (hdec : ∃ e, env.decode (contentText texts) = Except.error e)
    (hconn : env.connect 0 = none) :
    (call_tool env true name args).reconnects = 1 ∧
    (call_tool env true name args).procAttempts = 2 := by
  obtain ⟨e, he⟩ := hdec
  have hatt : attemptCall env 0 = Except.error e := by
    unfold attemptCall
    rw [h0]
    exact he
  cases h1 : attemptCall env 1 <;>
    simp [call_tool, call_tool_attempts, hatt, hconn, h1]

/-- C2 amended witness: the concrete decode-failure environment shows
1 reconnect and 2 attempts. -/
theorem call_tool_decode_failure_retries_witness :
    (call_tool envC2decode true "list_meetings" []).reconnects = 1 ∧
    (call_tool envC2decode true "list_meetings" []).procAttempts = 2 :=
  call_tool_decode_failure_retries envC2decode "list_meetings" [] ["not json"]
    rfl ⟨"Expecting value", rfl⟩ rfl

-- ── C8: every create_meeting failure ends in phase error ──────────────

/-- C8: whenever the invocation fails — client not connected, tool
result carrying an "error" key (which includes a transport failure
after retry, since call_tool then returns an error dict), a KeyError
from a missing date or start_time, or a non-dict result — the node
sets status "error", produces a non-empty textual reply instead of a
fault, and never writes the meeting_info channel, so the slot set
survives unchanged. -/
theorem create_meeting_failure_spec (settings : Settings) (connected : Bool)
    (env : CallEnv) (st : AgentState)
    (h : connected = false
       ∨ dictGet st.meeting_info "date" = none
       ∨ dictGet st.meeting_info "start_time" = none
       ∨ (∀ name args, pyInJson "error" (call_tool env true name args).result = true)
       ∨ (∀ name args, isObjJson (call_tool env true name args).result = false)) :
    (create_meeting_node settings connected env st).status = some "error" ∧
    (create_meeting_node settings connected env st).meeting_info = none ∧
    (applyUpdate st (create_meeting_node settings connected env st)).meeting_info
      = st.meeting_info ∧
    ∃ r, (create_meeting_node settings connected env st).response = some r ∧ r ≠ "" := by
  have hmi := create_meeting_meeting_info_none settings connected env st
  have happ : (applyUpdate st (create_meeting_node settings connected env st)).meeting_info
      = st.meeting_info := by
    simp [applyUpdate, hmi]
  have hkey : (create_meeting_node settings connected env st).status = some "error" ∧
      ∃ r, (create_meeting_node settings connected env st).response = some r ∧ r ≠ "" := by
    rcases h with hc | hd | hs | herr | hobj
    · subst hc
      exact ⟨rfl, "❌ Calendar service is not available. Please try again later.", rfl, by decide⟩
    · cases connected
      · exact ⟨rfl, "❌ Calendar service is not available. Please try again later.", rfl, by decide⟩
      · cases hst : dictGet st.meeting_info "start_time" with
        | none =>
            refine ⟨?_, "❌ Error creating meeting: KeyError", ?_, by decide⟩ <;>
              simp [create_meeting_node, hd, hst]
        | some sv =>
            refine ⟨?_, "❌ Error creating meeting: KeyError", ?_, by decide⟩ <;>
              simp [create_meeting_node, hd, hst]
    · cases connected
      · exact ⟨rfl, "❌ Calendar service is not available. Please try again later.", rfl, by decide⟩
      · cases hdt : dictGet st.meeting_info "date" with
        | none =>
            refine ⟨?_, "❌ Error creating meeting: KeyError", ?_, by decide⟩ <;>
              simp [create_meeting_node, hdt, hs]
        | some dv =>
            refine ⟨?_, "❌ Error creating meeting: KeyError", ?_, by decide⟩ <;>
              simp [create_meeting_node, hdt, hs]
    · cases connected
      · exact ⟨rfl, "❌ Calendar service is not available. Please try again later.", rfl, by decide⟩
      · cases hdt : dictGet st.meeting_info "date" with
        | none =>
            cases hst : dictGet st.meeting_info "start_time" with
            | none =>
                refine ⟨?_, "❌ Error creating meeting: KeyError", ?_, by decide⟩ <;>
                  simp [create_meeting_node, hdt, hst]
            | some sv =>
                refine ⟨?_, "❌ Error creating meeting: KeyError", ?_, by decide⟩ <;>
                  simp [create_meeting_node, hdt, hst]
        | some dv =>
            cases hst : dictGet st.meeting_info "start_time" with
            | none =>
                refine ⟨?_, "❌ Error creating meeting: KeyError", ?_, by decide⟩ <;>
                  simp [create_meeting_node, hdt, hst]
            | some sv =>
                have hp := herr "create_meeting" (create_meeting_args settings st.meeting_info dv sv)
                cases hres : (call_tool env true "create_meeting"
                    (create_meeting_args settings st.meeting_info dv sv)).result with
                | obj fields =>
                    rw [hres] at hp
                    refine ⟨?_,
                      "❌ Failed to create meeting: " ++
                        pyStrJson ((objGet fields "error").getD (Json.str "")),
                      ?_, str_append_ne_empty _ _ (by decide)⟩ <;>
                      simp [create_meeting_node, hdt, hst, hres, hp]
                | arr elems =>
                    rw [hres] at hp
                    refine ⟨?_, "❌ Error creating meeting: TypeError", ?_, by decide⟩ <;>
                      simp [create_meeting_node, hdt, hst, hres, hp]
                | str s0 =>
                    rw [hres] at hp
                    refine ⟨?_, "❌ Error creating meeting: TypeError", ?_, by decide⟩ <;>
                      simp [create_meeting_node, hdt, hst, hres, hp]
    · cases connected
      · exact ⟨rfl, "❌ Calendar service is not available. Please try again later.", rfl, by decide⟩
      · cases hdt : dictGet st.meeting_info "date" with
        | none =>
            cases hst : dictGet st.meeting_info "start_time" with
            | none =>
                refine ⟨?_, "❌ Error creating meeting: KeyError", ?_, by decide⟩ <;>
                  simp [create_meeting_node, hdt, hst]
            | some sv =>
                refine ⟨?_, "❌ Error creating meeting: KeyError", ?_, by decide⟩ <;>
                  simp [create_meeting_node, hdt, hst]
        | some dv =>
            cases hst : dictGet st.meeting_info "start_time" with
            | none =>
                refine ⟨?_, "❌ Error creating meeting: KeyError", ?_, by decide⟩ <;>
                  simp [create_meeting_node, hdt, hst]
            | some sv =>
                have hob := hobj "create_meeting" (create_meeting_args settings st.meeting_info dv sv)
                cases hres : (call_tool env true "create_meeting"
                    (create_meeting_args settings st.meeting_info dv sv)).result with
                | obj fields =>
                    rw [hres] at hob
                    exact absurd hob (by simp [isObjJson])
                | arr elems =>
                    cases hperr : pyInJson "error" (Json.arr elems) with
                    | true =>
                        refine ⟨?_, "❌ Error creating meeting: TypeError", ?_, by decide⟩ <;>
                          simp [create_meeting_node, hdt, hst, hres, hperr]
                    | false =>
                        refine ⟨?_, "❌ Error creating meeting: AttributeError", ?_, by decide⟩ <;>
                          simp [create_meeting_node, hdt, hst, hres, hperr]
                | str s0 =>
                    cases hperr : pyInJson "error" (Json.str s0) with
                    | true =>
                        refine ⟨?_, "❌ Error creating meeting: TypeError", ?_, by decide⟩ <;>
                          simp [create_meeting_node, hdt, hst, hres, hperr]
                    | false =>
                        refine ⟨?_, "❌ Error creating meeting: AttributeError", ?_, by decide⟩ <;>
                          simp [create_meeting_node, hdt, hst, hres, hperr]
  exact ⟨hkey.1, hmi, happ, hkey.2⟩

/-- C8 witness: an application-level error result at a complete slot
set produces status "error" and leaves the slot set unchanged. -/
theorem create_meeting_failure_spec_witness :
    (create_meeting_node settingsW true envC8err stC8full).status = some "error" ∧
    (applyUpdate stC8full (create_meeting_node settingsW true envC8err stC8full)).meeting_info
      = stC8full.meeting_info := by
  have h := create_meeting_failure_spec settingsW true envC8err stC8full
    (Or.inr (Or.inr (Or.inr (Or.inl (fun name args => rfl)))))
  exact ⟨h.1, h.2.2.1⟩

-- ── C9: argument defaulting at the invoke step ────────────────────────

/-- C9: the procedure arguments default the optional fields without
touching the slot set: an absent end_time is sent as the start_time
value (a zero-length meeting), an absent title is sent as "Meeting",
date and start_time are forwarded as stored, and the node never writes
the meeting_info channel. -/
theorem create_meeting_defaults_spec (settings : Settings) (info : PyDict)
    (dv sv : PyVal)
    (_hd : dictGet info "date" = some dv)
    (_hs : dictGet info "start_time" = some sv) :
    (dictGet info "end_time" = none →
        dictGet (create_meeting_args settings info dv sv) "end_time" = some sv) ∧
    (dictGet info "title" = none →
        dictGet (create_meeting_args settings info dv sv) "title" = some (PyVal.str "Meeting")) ∧
    dictGet (create_meeting_args settings info dv sv) "date" = some dv ∧
    dictGet (create_meeting_args settings info dv sv) "start_time" = some sv ∧
    (∀ connected env st, (create_meeting_node settings connected env st).meeting_info = none ∧
        (applyUpdate st (create_meeting_node settings connected env st)).meeting_info
          = st.meeting_info) := by
  refine ⟨?_, ?_, ?_, ?_, ?_⟩
  · intro he
    simp [create_meeting_args, dictGet, dictGetD, he]
  · intro ht
    simp [create_meeting_args, dictGet, dictGetD, ht]
  · simp [create_meeting_args, dictGet]
  · simp [create_meeting_args, dictGet]
  · intro connected env st
    have hmi := create_meeting_meeting_info_none settings connected env st
    exact ⟨hmi, by simp [applyUpdate, hmi]⟩

/-- C9 witness: with title and end_time absent, the concrete call
arguments carry end_time 15:00 (= start_time) and title "Meeting",
and the node leaves meeting_info unwritten. -/
theorem create_meeting_defaults_spec_witness :
    dictGet (create_meeting_args settingsW stC9defaults.meeting_info
        (PyVal.str "2025-07-15") (PyVal.str "15:00")) "end_time"
      = some (PyVal.str "15:00") ∧
    dictGet (create_meeting_args settingsW stC9defaults.meeting_info
        (PyVal.str "2025-07-15") (PyVal.str "15:00")) "title"
      = some (PyVal.str "Meeting") ∧
    (create_meeting_node settingsW true envC9ok stC9defaults).meeting_info = none := by
  have h := create_meeting_defaults_spec settingsW stC9defaults.meeting_info
    (PyVal.str "2025-07-15") (PyVal.str "15:00") (by decide) (by decide)
  exact ⟨h.1 (by decide), h.2.1 (by decide), (h.2.2.2.2 true envC9ok stC9defaults).1⟩
